import Mathlib

/-!
Verification of the parking-garage controller (`controle-de-estacionamentos`):
a shallow embedding of the MODBUS client (`src/common/modbus_client.c`),
the gate controller (`src/common/gate_control.c`) and the inter-floor
passage detector (`src/servidor_andar1/main.c`), with theorems about the
properties stated in the specification.

Machine integers are modelled as `Nat` with explicit masking where the C
code relies on wrap-around or byte extraction; `time_t` values are `Nat`
seconds, wall-clock instants are `Nat` milliseconds.
-/

namespace Parking

/-! ## CRC16 (modbus_crc16, modbus_client.c lines 33-48)

The C routine keeps `crc` in a `uint16_t`; starting from 0xFFFF every
operation (xor with a byte, shift right, xor with 0xA001) stays below
2^16, so plain `Nat` is a faithful model. -/

/-- One iteration of the inner 8-fold loop of `modbus_crc16`:
if the LSB is set, shift right and xor with the polynomial 0xA001,
otherwise just shift right. -/
def crcStep (crc : Nat) : Nat :=
  if crc % 2 = 1 then (crc / 2) ^^^ 0xA001 else crc / 2

/-- The 8-fold inner loop of `modbus_crc16` applied to one value. -/
def crcStep8 (crc : Nat) : Nat :=
  crcStep (crcStep (crcStep (crcStep (crcStep (crcStep (crcStep (crcStep crc)))))))

/-- `modbus_crc16`: fold the per-byte update (xor the byte into the low
bits, then run the 8 shift/xor steps) over the message, starting at
0xFFFF. Bytes are `Nat` values below 256. -/
def modbus_crc16 (data : List Nat) : Nat :=
  data.foldl (fun crc b => crcStep8 (crc ^^^ b)) 0xFFFF

/-- Reference table entry: the table-based MODBUS CRC16 oracle
precomputes, for each byte value `i`, the result of the 8 shift/xor
steps on `i`. -/
def crcTable (i : Nat) : Nat := crcStep8 i

/-- Reference table-based MODBUS CRC16: per byte,
`crc := (crc >> 8) ^ table[(crc ^ byte) & 0xFF]`. -/
def crc16_table_ref (data : List Nat) : Nat :=
  data.foldl (fun crc b => (crc / 256) ^^^ crcTable ((crc ^^^ b) % 256)) 0xFFFF

/-! ## Frame construction (modbus_client.c lines 53-80, 171-189, 430-454)

Frames are byte lists; every byte-producing expression applies the same
`>>> 8` / `&&& 0xFF` extractions as the C code. -/

/-- `MODBUS_MATRICULA` (system_config.h): the configured numeric
identifier, the character codes of the string "1234". -/
def MODBUS_MATRICULA : List Nat := [49, 50, 51, 52]

def LPR_REG_TRIGGER : Nat := 1

def MODBUS_ADDR_DISPLAY : Nat := 0x20

def DISPLAY_FLAG_LOTADO_GERAL : Nat := 1

def DISPLAY_FLAG_BLOQ_ANDAR1 : Nat := 2

def DISPLAY_FLAG_BLOQ_ANDAR2 : Nat := 4

def MIN_PLATE_CONFIDENCE : Nat := 70

/-- `add_matricula_to_message` (modbus_client.c lines 53-80): append the
last four decimal digits of the configured identifier, packed as two
16-bit values (digit, digit) emitted high byte first. -/
def add_matricula_to_message (buffer : List Nat) : List Nat :=
  let matricula := MODBUS_MATRICULA
  if matricula.length < 4 then buffer
  else
    let last4 := matricula.drop (matricula.length - 4)
    let d := fun i => last4.getD i 0 - 48
    let mat_part1 := (d 0 <<< 8 ||| d 1) % 65536
    let mat_part2 := (d 2 <<< 8 ||| d 3) % 65536
    buffer ++ [(mat_part1 >>> 8) &&& 0xFF, mat_part1 &&& 0xFF,
               (mat_part2 >>> 8) &&& 0xFF, mat_part2 &&& 0xFF]

/-- A 16-bit value as two bytes, big-endian (spec wording for the
identifier suffix). -/
def be16 (v : Nat) : List Nat := [(v >>> 8) &&& 0xFF, v &&& 0xFF]

/-- The last four decimal digits of the configured identifier. -/
def matriculaDigits : List Nat :=
  (MODBUS_MATRICULA.drop (MODBUS_MATRICULA.length - 4)).map (fun c => c - 48)

/-- The 4-byte identifier suffix as the spec describes it: the two digit
pairs, each encoded as a big-endian 16-bit value. -/
def matriculaSuffix : List Nat :=
  be16 (matriculaDigits.getD 0 0 * 256 + matriculaDigits.getD 1 0) ++
    be16 (matriculaDigits.getD 2 0 * 256 + matriculaDigits.getD 3 0)

/-- The outbound request frame built by `modbus_camera_trigger`
(modbus_client.c lines 171-189): Write Single Register of value 1 to the
camera trigger register, identifier suffix, then CRC low byte first. -/
def camera_trigger_frame (camera : Nat) : List Nat :=
  let req := [camera, 0x06, (LPR_REG_TRIGGER >>> 8) &&& 0xFF, LPR_REG_TRIGGER &&& 0xFF,
              0x00, 0x01]
  let req := add_matricula_to_message req
  let crc := modbus_crc16 req
  req ++ [crc &&& 0xFF, (crc >>> 8) &&& 0xFF]

/-- `display_info_t`: per-floor free-spot counts, totals and status
flags. The `uint8_t` fields are reduced mod 256 where they are read into
16-bit registers. -/
structure DisplayInfo where
  terreo_pne : Nat
  terreo_idoso : Nat
  terreo_comum : Nat
  andar1_pne : Nat
  andar1_idoso : Nat
  andar1_comum : Nat
  andar2_pne : Nat
  andar2_idoso : Nat
  andar2_comum : Nat
  total_pne : Nat
  total_idoso : Nat
  total_comum : Nat
  lotado_geral : Bool
  bloqueado_andar1 : Bool
  bloqueado_andar2 : Bool

/-- The 13 display registers serialized by `modbus_display_update`
(modbus_client.c lines 409-428). -/
def displayRegs (info : DisplayInfo) : List Nat :=
  [info.terreo_pne % 256, info.terreo_idoso % 256, info.terreo_comum % 256,
   info.andar1_pne % 256, info.andar1_idoso % 256, info.andar1_comum % 256,
   info.andar2_pne % 256, info.andar2_idoso % 256, info.andar2_comum % 256,
   info.total_pne % 256, info.total_idoso % 256, info.total_comum % 256,
   (if info.lotado_geral then DISPLAY_FLAG_LOTADO_GERAL else 0) |||
     (if info.bloqueado_andar1 then DISPLAY_FLAG_BLOQ_ANDAR1 else 0) |||
     (if info.bloqueado_andar2 then DISPLAY_FLAG_BLOQ_ANDAR2 else 0)]

/-- The outbound request frame built by `modbus_display_update`
(modbus_client.c lines 430-454): Write Multiple Registers of the 13
display registers, identifier suffix, then CRC low byte first. -/
def display_update_frame (info : DisplayInfo) : List Nat :=
  let data := displayRegs info
  let req := [ MODBUS_ADDR_DISPLAY, 0x10, 0x00, 0x00, 0x00, 0x0D, 0x1A] ++
    (data.map (fun v => [(v >>> 8) &&& 0xFF, v &&& 0xFF])).flatten
  let req := add_matricula_to_message req
  let crc := modbus_crc16 req
  req ++ [crc &&& 0xFF, (crc >>> 8) &&& 0xFF]

/-- Spec-side property (C6): a frame splits as core, then the big-endian
identifier suffix immediately before the CRC, with the CRC of all
preceding bytes appended low byte first. -/
def FrameWellTagged (frame : List Nat) : Prop :=
  ∃ core : List Nat,
    frame = core ++ matriculaSuffix ++
      [modbus_crc16 (core ++ matriculaSuffix) &&& 0xFF,
       (modbus_crc16 (core ++ matriculaSuffix) >>> 8) &&& 0xFF]

/-! ## Device client statistics and operations (modbus_client.c) -/

/-- `modbus_stats_t`. -/
structure ModbusStats where
  requests_sent : Nat
  responses_received : Nat
  errors : Nat
  timeouts : Nat
  crc_errors : Nat
deriving DecidableEq

/-- Statistics right after `modbus_init` zeroes them. -/
def initStats : ModbusStats := ⟨0, 0, 0, 0, 0⟩

/-- Outcome of one send/receive round trip on the transport. -/
inductive SendRecvOutcome
  | sendFail
  | recvFail
  | okRT
deriving DecidableEq

/-- Control-flow and statistics model of `modbus_camera_trigger`
(modbus_client.c lines 158-218). `tr n` is the transport outcome of the
n-th attempt the operation would make; the source contains no retry
loop, so only `tr 0` is ever consumed: one request is counted, a
send or receive failure counts one error and fails the call, a
successful round trip counts one response. -/
def modbus_camera_trigger (tr : Nat → SendRecvOutcome) (s : ModbusStats) :
    Int × ModbusStats :=
  let s1 := { s with requests_sent := s.requests_sent + 1 }
  match tr 0 with
  | .sendFail => (-1, { s1 with errors := s1.errors + 1 })
  | .recvFail => (-1, { s1 with errors := s1.errors + 1 })
  | .okRT => (0, { s1 with responses_received := s1.responses_received + 1 })

/-- `modbus_set_retries` (modbus_client.c lines 703-711): range-check and
store the retry count. No operation of the client reads it back. -/
def modbus_set_retries (retries : Int) (current : Int) : Int :=
  if retries < 0 ∨ retries > 10 then current else retries

/-- `modbus_display_update` (modbus_client.c lines 398-487): same
single-attempt send/receive flow as the camera trigger. -/
def modbus_display_update (tr : Nat → SendRecvOutcome) (s : ModbusStats) :
    Int × ModbusStats :=
  let s1 := { s with requests_sent := s.requests_sent + 1 }
  match tr 0 with
  | .sendFail => (-1, { s1 with errors := s1.errors + 1 })
  | .recvFail => (-1, { s1 with errors := s1.errors + 1 })
  | .okRT => (0, { s1 with responses_received := s1.responses_received + 1 })

/-- `modbus_display_update_floor` (modbus_client.c lines 489-513):
`ok` is the outcome of the underlying `modbus_write_registers` call; a
failure only counts an error, a success counts one request and one
response. -/
def modbus_display_update_floor (floor : Int) (ok : Bool) (s : ModbusStats) :
    Int × ModbusStats :=
  if floor < 0 ∨ floor > 2 then (-1, s)
  else if ok then
    (0, { s with requests_sent := s.requests_sent + 1
                 responses_received := s.responses_received + 1 })
  else (-1, { s with errors := s.errors + 1 })

/-- `modbus_display_update_flags` (modbus_client.c lines 515-539). -/
def modbus_display_update_flags (ok : Bool) (s : ModbusStats) : Int × ModbusStats :=
  if ok then
    (0, { s with requests_sent := s.requests_sent + 1
                 responses_received := s.responses_received + 1 })
  else (-1, { s with errors := s.errors + 1 })

/-- `modbus_display_read` (modbus_client.c lines 541-579). -/
def modbus_display_read (ok : Bool) (s : ModbusStats) : Int × ModbusStats :=
  if ok then
    (0, { s with requests_sent := s.requests_sent + 1
                 responses_received := s.responses_received + 1 })
  else (-1, { s with errors := s.errors + 1 })

/-- `modbus_test_device` (modbus_client.c lines 585-607): reads one
register, touches no statistics. -/
def modbus_test_device (ok : Bool) (s : ModbusStats) : Int × ModbusStats :=
  (if ok then 0 else -1, s)

/-! ## LPR session (modbus_camera_read_plate, modbus_client.c lines 220-342) -/

/-- Abstract responses of one LPR camera during a plate read:
`statusReads i` is the i-th status-register poll (`none` = bus read
failure), `plateRead` the four plate registers, `confidenceRead` the
confidence register. -/
structure LprDevice where
  statusReads : Nat → Option Nat
  plateRead : Option (Nat × Nat × Nat × Nat)
  confidenceRead : Option Nat

/-- Result of the status-polling loop together with the statistics. -/
inductive PollResult
  | okR (s : ModbusStats)
  | errR (s : ModbusStats)
  | timeoutR (s : ModbusStats)
deriving DecidableEq

def PollResult.stats : PollResult → ModbusStats
  | .okR s => s
  | .errR s => s
  | .timeoutR s => s

/-- The status-polling loop of `modbus_camera_read_plate` (lines
241-278): at most `fuel` polls (one per 100 ms until `timeout_ms`), each
counting a request; a failed read counts an error and keeps polling, a
response counts and updates `status`; status OK breaks out, status ERROR
fails the call, anything else keeps polling. When the loop exhausts its
budget without an OK, a timeout is counted. -/
def lprPoll (reads : Nat → Option Nat) : Nat → Nat → Int → ModbusStats → PollResult
  | 0, _, status, s =>
      if status = 2 then .okR s else .timeoutR { s with timeouts := s.timeouts + 1 }
  | fuel + 1, i, status, s =>
      let s1 := { s with requests_sent := s.requests_sent + 1 }
      match reads i with
      | none => lprPoll reads fuel (i + 1) status { s1 with errors := s1.errors + 1 }
      | some v =>
          let s2 := { s1 with responses_received := s1.responses_received + 1 }
          if v = 2 then .okR s2
          else if v = 3 then .errR s2
          else lprPoll reads fuel (i + 1) (v : Int) s2

/-- The eight plate bytes unpacked from the four plate registers, high
byte first (lines 295-298). -/
def plateBytes : Nat × Nat × Nat × Nat → List Nat
  | (r0, r1, r2, r3) =>
    [(r0 >>> 8) &&& 0xFF, r0 &&& 0xFF, (r1 >>> 8) &&& 0xFF, r1 &&& 0xFF,
     (r2 >>> 8) &&& 0xFF, r2 &&& 0xFF, (r3 >>> 8) &&& 0xFF, r3 &&& 0xFF]

/-- Truncate at the first byte outside the printable range 32-126
(lines 301-307). -/
def truncAtNonPrintable (l : List Nat) : List Nat :=
  l.takeWhile (fun b => decide (32 ≤ b) && decide (b ≤ 126))

/-- Remove trailing spaces (lines 309-313). -/
def trimTrailingSpaces (l : List Nat) : List Nat :=
  (l.reverse.dropWhile (fun b => b == 32)).reverse

/-- `plate_reading_t`: the decoded plate as a byte list, the confidence,
the success flag, and the capture timestamp. -/
structure PlateReading where
  plate : List Nat
  confidence : Nat
  success : Bool
  timestamp : Nat
deriving DecidableEq

/-- The effective timeout of `modbus_camera_read_plate` (lines 229-231):
non-positive arguments default to 2000 ms. -/
def lprTimeoutMs (timeout_ms : Int) : Nat :=
  if timeout_ms ≤ 0 then 2000 else timeout_ms.toNat

/-- The tail of `modbus_camera_read_plate` after the status poll
reported OK (lines 280-341): read and decode the plate registers, then
read the confidence register — a failure there counts an error and
leaves confidence 0 without failing the call — and set
`success = confidence >= MIN_PLATE_CONFIDENCE && strlen(plate) >= 7`. -/
def lprFinish (dev : LprDevice) (now : Nat) (s1 : ModbusStats) :
    Option PlateReading × ModbusStats :=
  let s2 := { s1 with requests_sent := s1.requests_sent + 1 }
  match dev.plateRead with
  | none => (none, { s2 with errors := s2.errors + 1 })
  | some regs =>
      let s3 := { s2 with responses_received := s2.responses_received + 1 }
      let plate := trimTrailingSpaces (truncAtNonPrintable (plateBytes regs))
      let s4 := { s3 with requests_sent := s3.requests_sent + 1 }
      match dev.confidenceRead with
      | none =>
          (some ⟨plate, 0,
            decide (0 ≥ MIN_PLATE_CONFIDENCE) && decide (plate.length ≥ 7), now⟩,
           { s4 with errors := s4.errors + 1 })
      | some c =>
          (some ⟨plate, c,
            decide (c ≥ MIN_PLATE_CONFIDENCE) && decide (plate.length ≥ 7), now⟩,
           { s4 with responses_received := s4.responses_received + 1 })

/-- `modbus_camera_read_plate` (modbus_client.c lines 220-342): default
the timeout, poll the status register, and on OK run the plate and
confidence reads. -/
def modbus_camera_read_plate (dev : LprDevice) (timeout_ms : Int) (now : Nat)
    (s : ModbusStats) : Option PlateReading × ModbusStats :=
  match lprPoll dev.statusReads ((lprTimeoutMs timeout_ms + 99) / 100) 0 (-1) s with
  | .errR s1 => (none, s1)
  | .timeoutR s1 => (none, s1)
  | .okR s1 => lprFinish dev now s1

/-! ## Bus operations for the statistics invariant -/

/-- One public bus operation together with the device/transport
behaviour it encounters. -/
inductive BusOp
  | trigger (tr : Nat → SendRecvOutcome)
  | readPlate (dev : LprDevice) (timeout_ms : Int) (now : Nat)
  | displayUpdate (tr : Nat → SendRecvOutcome)
  | displayUpdateFloor (floor : Int) (ok : Bool)
  | displayUpdateFlags (ok : Bool)
  | displayRead (ok : Bool)
  | testDevice (ok : Bool)

/-- The statistics after one bus operation. -/
def applyBusOp (s : ModbusStats) : BusOp → ModbusStats
  | .trigger tr => (modbus_camera_trigger tr s).2
  | .readPlate dev timeout_ms now => (modbus_camera_read_plate dev timeout_ms now s).2
  | .displayUpdate tr => (modbus_display_update tr s).2
  | .displayUpdateFloor floor ok => (modbus_display_update_floor floor ok s).2
  | .displayUpdateFlags ok => (modbus_display_update_flags ok s).2
  | .displayRead ok => (modbus_display_read ok s).2
  | .testDevice ok => (modbus_test_device ok s).2

/-- The statistics after a sequence of bus operations. -/
def runBusOps (s : ModbusStats) (ops : List BusOp) : ModbusStats :=
  ops.foldl applyBusOp s

/-! ## Gate controller (gate_control.c)

`time_t` instants are `Nat` seconds; the wall clock in milliseconds is
related to them by division by 1000 (`gate_tick_at_ms`). -/

inductive GateState
  | CLOSED
  | OPENING
  | OPEN
  | CLOSING
  | ERROR
deriving DecidableEq

def GATE_TIMEOUT_MS : Nat := 5000

/-- The per-gate state mutated by `gate_control.c`: current state, the
`time_t` of the last state-entering transition and the operation
counter. -/
structure Gate where
  state : GateState
  last_operation : Nat
  operation_count : Nat
deriving DecidableEq

/-- The gate as `init_gate` leaves it at time `now`. -/
def init_gate (now : Nat) : Gate :=
  ⟨GateState.CLOSED, now, 0⟩

/-- One iteration of the polling loop body in `gate_control_thread`
(gate_control.c lines 50-116): returns the value written to the motor
output this tick together with the updated gate. In OPENING/CLOSING the
sensor check and the timeout check run in sequence, exactly as in the
source; the timeout compares whole seconds:
`time(NULL) - last_operation > GATE_TIMEOUT_MS / 1000`. -/
def gate_tick (now : Nat) (sensor_open sensor_close : Bool) (g : Gate) : Bool × Gate :=
  match g.state with
  | .CLOSED => (false, g)
  | .OPENING =>
      let g1 := if sensor_open then
          { g with state := GateState.OPEN, last_operation := now
                   operation_count := g.operation_count + 1 }
        else g
      let g2 := if now - g1.last_operation > GATE_TIMEOUT_MS / 1000 then
          { g1 with state := GateState.ERROR }
        else g1
      (true, g2)
  | .OPEN => (false, g)
  | .CLOSING =>
      let g1 := if sensor_close then
          { g with state := GateState.CLOSED, last_operation := now
                   operation_count := g.operation_count + 1 }
        else g
      let g2 := if now - g1.last_operation > GATE_TIMEOUT_MS / 1000 then
          { g1 with state := GateState.ERROR }
        else g1
      (true, g2)
  | .ERROR => (false, g)

/-- `gate_open` (gate_control.c lines 219-249): rejected in ERROR, a
no-op success in OPEN/OPENING, otherwise transition to OPENING and
record the command time. -/
def gate_open (now : Nat) (g : Gate) : Int × Gate :=
  if g.state = GateState.ERROR then (-1, g)
  else if g.state = GateState.OPEN ∨ g.state = GateState.OPENING then (0, g)
  else (0, { g with state := GateState.OPENING, last_operation := now })

/-- `gate_close` (gate_control.c lines 251-281). -/
def gate_close (now : Nat) (g : Gate) : Int × Gate :=
  if g.state = GateState.ERROR then (-1, g)
  else if g.state = GateState.CLOSED ∨ g.state = GateState.CLOSING then (0, g)
  else (0, { g with state := GateState.CLOSING, last_operation := now })

/-- `gate_reset_error` (gate_control.c lines 297-331): only acts in
ERROR; close sensor wins, then open sensor, else assume closed. -/
def gate_reset_error (now : Nat) (sensor_open sensor_close : Bool) (g : Gate) :
    Int × Gate :=
  if g.state = GateState.ERROR then
    let st := if sensor_close then GateState.CLOSED
      else if sensor_open then GateState.OPEN
      else GateState.CLOSED
    (0, { g with state := st, last_operation := now })
  else (0, g)

/-- `gate_emergency_open_all` (gate_control.c lines 333-340): invokes
the ordinary `gate_open` on the entry gate and then the exit gate. -/
def gate_emergency_open_all (now : Nat) (entry exitG : Gate) : Gate × Gate :=
  ((gate_open now entry).2, (gate_open now exitG).2)

/-- The polling loop reads the clock in whole seconds; a tick happening
at wall-clock millisecond `t_ms` sees `time(NULL) = t_ms / 1000`. -/
def gate_tick_at_ms (t_ms : Nat) (sensor_open sensor_close : Bool) (g : Gate) :
    Bool × Gate :=
  gate_tick (t_ms / 1000) sensor_open sensor_close g

/-- `gate_open` issued at wall-clock millisecond `t_ms`. -/
def gate_open_at_ms (t_ms : Nat) (g : Gate) : Int × Gate :=
  gate_open (t_ms / 1000) g

/-- An external event hitting one gate controller: an asynchronous
command or one iteration of its polling loop. -/
inductive GateEvent
  | openCmd (now : Nat)
  | closeCmd (now : Nat)
  | resetCmd (now : Nat) (sensor_open sensor_close : Bool)
  | tick (now : Nat) (sensor_open sensor_close : Bool)

/-- Run a sequence of commands and ticks against one gate, collecting
for every tick the pre-tick state together with the motor value written
during that tick. -/
def gateRun (g : Gate) : List GateEvent → List (GateState × Bool) × Gate
  | [] => ([], g)
  | GateEvent.openCmd now :: rest => gateRun (gate_open now g).2 rest
  | GateEvent.closeCmd now :: rest => gateRun (gate_close now g).2 rest
  | GateEvent.resetCmd now so sc :: rest => gateRun (gate_reset_error now so sc g).2 rest
  | GateEvent.tick now so sc :: rest =>
      let m := gate_tick now so sc g
      let r := gateRun m.2 rest
      ((g.state, m.1) :: r.1, r.2)

/-! ## Passage direction detector (servidor_andar1/main.c lines 81-150) -/

inductive PassagePhase
  | IDLE
  | S1_ACTIVE
  | S2_ACTIVE
  | BOTH_ACTIVE
deriving DecidableEq

/-- The detector's persistent state: its phase, the remembered
entry-side flag and the `time_t` of the last recorded trigger. -/
structure PassageState where
  phase : PassagePhase
  entered_from_s1 : Bool
  last_trigger : Nat
deriving DecidableEq

/-- `detect_passage_direction` (servidor_andar1/main.c lines 81-150):
one sample of the two passage sensors at `time_t` second `now`. Returns
1 for a completed upward crossing (floor 1 to floor 2), -1 for a
downward crossing, 0 otherwise, together with the next state. The
stale-sequence guard resets to IDLE when more than 5 seconds passed
since the last recorded trigger. -/
def detect_passage_direction (now : Nat) (s1 s2 : Bool) (st : PassageState) :
    Int × PassageState :=
  let st := if now - st.last_trigger > 5 then
      { st with phase := PassagePhase.IDLE, entered_from_s1 := false }
    else st
  match st.phase with
  | .IDLE =>
      if s1 && !s2 then
        (0, { st with phase := PassagePhase.S1_ACTIVE, entered_from_s1 := true
                      last_trigger := now })
      else if !s1 && s2 then
        (0, { st with phase := PassagePhase.S2_ACTIVE, entered_from_s1 := false
                      last_trigger := now })
      else (0, st)
  | .S1_ACTIVE =>
      if s1 && s2 then (0, { st with phase := PassagePhase.BOTH_ACTIVE })
      else if !s1 && !s2 then (0, { st with phase := PassagePhase.IDLE })
      else (0, st)
  | .S2_ACTIVE =>
      if s1 && s2 then (0, { st with phase := PassagePhase.BOTH_ACTIVE })
      else if !s1 && !s2 then (0, { st with phase := PassagePhase.IDLE })
      else (0, st)
  | .BOTH_ACTIVE =>
      if !s1 && s2 && st.entered_from_s1 then
        (1, { st with phase := PassagePhase.S2_ACTIVE })
      else if s1 && !s2 && !st.entered_from_s1 then
        (-1, { st with phase := PassagePhase.S1_ACTIVE })
      else if !s1 && !s2 then (0, { st with phase := PassagePhase.IDLE })
      else (0, st)

/-- Run the detector over a list of samples `(now, s1, s2)`, collecting
the returned direction of every call. -/
def runPassage (st : PassageState) : List (Nat × Bool × Bool) → List Int × PassageState
  | [] => ([], st)
  | (now, s1, s2) :: rest =>
      let d := detect_passage_direction now s1 s2 st
      let r := runPassage d.2 rest
      (d.1 :: r.1, r.2)

lemma crcStep_eq (x : Nat) : crcStep x = x / 2 ^^^ x % 2 * 0xA001 := by
  unfold crcStep
  rcases Nat.mod_two_eq_zero_or_one x with h | h <;> simp [h]

lemma xor_div_two (a b : Nat) : (a ^^^ b) / 2 = a / 2 ^^^ b / 2 := by
  apply Nat.eq_of_testBit_eq
  intro i
  simp [Nat.testBit_div_two, Nat.testBit_xor]

lemma xor_mod_two (a b : Nat) : (a ^^^ b) % 2 = a % 2 ^^^ b % 2 := by
  rw [← Nat.and_one_is_mod, ← Nat.and_one_is_mod, ← Nat.and_one_is_mod,
    Nat.and_xor_distrib_right]

lemma xor_left_comm (a b c : Nat) : a ^^^ (b ^^^ c) = b ^^^ (a ^^^ c) := by
  rw [← Nat.xor_assoc, Nat.xor_comm a b, Nat.xor_assoc]

/-- The CRC step function is linear over XOR. -/
lemma crcStep_xor (a b : Nat) : crcStep (a ^^^ b) = crcStep a ^^^ crcStep b := by
  rw [crcStep_eq, crcStep_eq, crcStep_eq, xor_div_two, xor_mod_two]
  rcases Nat.mod_two_eq_zero_or_one a with h | h <;>
    rcases Nat.mod_two_eq_zero_or_one b with h' | h' <;>
      simp [h, h', Nat.xor_assoc, Nat.xor_comm, xor_left_comm, Nat.xor_self]

lemma crcStep8_xor (a b : Nat) : crcStep8 (a ^^^ b) = crcStep8 a ^^^ crcStep8 b := by
  simp [crcStep8, crcStep_xor]

lemma crcStep_two_mul (x : Nat) : crcStep (2 * x) = x := by
  rw [crcStep_eq]
  simp [Nat.mul_div_cancel_left, Nat.mul_mod_right]

/-- Eight CRC steps on a value with zero low byte just shift it down. -/
lemma crcStep8_mul256 (x : Nat) : crcStep8 (256 * x) = x := by
  have h : (256 : Nat) * x = 2 * (2 * (2 * (2 * (2 * (2 * (2 * (2 * x))))))) := by ring
  simp [crcStep8, h, crcStep_two_mul]

lemma div_mod_xor (y : Nat) : 256 * (y / 256) ^^^ y % 256 = y := by
  apply Nat.eq_of_testBit_eq
  intro i
  have h256 : (256 : Nat) = 2 ^ 8 := by norm_num
  have hs : (256 : Nat) * (y / 256) = (y / 256) <<< 8 := by
    rw [Nat.shiftLeft_eq]
    ring
  have hd : y / 256 = y >>> 8 := by
    rw [Nat.shiftRight_eq_div_pow, h256]
  rw [Nat.testBit_xor, hs, Nat.testBit_shiftLeft, hd, Nat.testBit_shiftRight, h256,
    Nat.testBit_mod_two_pow]
  by_cases h : i < 8
  · simp [h, Nat.not_le.mpr h]
  · have h8 : 8 + (i - 8) = i := by omega
    simp [h, Nat.le_of_not_lt h, h8]

/-- Splitting a CRC state into high and low byte commutes with the
8-fold step loop: this is exactly the table-lookup identity. -/
lemma crcStep8_split (y : Nat) : crcStep8 y = y / 256 ^^^ crcStep8 (y % 256) := by
  conv_lhs => rw [← div_mod_xor y]
  rw [crcStep8_xor, crcStep8_mul256]

lemma xor_div_256 (a b : Nat) (hb : b < 256) : (a ^^^ b) / 256 = a / 256 := by
  apply Nat.eq_of_testBit_eq
  intro i
  have h256 : (256 : Nat) = 2 ^ 8 := by norm_num
  have hd : ∀ z : Nat, z / 256 = z >>> 8 := fun z => by
    rw [Nat.shiftRight_eq_div_pow, h256]
  rw [hd, hd, Nat.testBit_shiftRight, Nat.testBit_shiftRight, Nat.testBit_xor]
  have hb8 : b.testBit (8 + i) = false := by
    apply Nat.testBit_lt_two_pow
    calc b < 256 := hb
    _ = 2 ^ 8 := h256
    _ ≤ 2 ^ (8 + i) := Nat.pow_le_pow_right (by norm_num) (by omega)
  simp [hb8]

lemma crc16_fold_agree (data : List Nat) (hdata : ∀ b ∈ data, b < 256) (crc : Nat) :
    data.foldl (fun crc b => crcStep8 (crc ^^^ b)) crc =
      data.foldl (fun crc b => (crc / 256) ^^^ crcTable ((crc ^^^ b) % 256)) crc := by
  induction data generalizing crc with
  | nil => rfl
  | cons b rest ih =>
      have hb : b < 256 := hdata b (List.mem_cons_self b rest)
      have hrest : ∀ x ∈ rest, x < 256 := fun x hx => hdata x (List.mem_cons_of_mem b hx)
      have hstep : crcStep8 (crc ^^^ b) = (crc / 256) ^^^ crcTable ((crc ^^^ b) % 256) := by
        rw [crcStep8_split (crc ^^^ b), xor_div_256 crc b hb]
        rfl
      simp only [List.foldl_cons, hstep]
      exact ih hrest _

/-! ## Frame theorems -/

lemma add_matricula_eq (buffer : List Nat) :
    add_matricula_to_message buffer = buffer ++ matriculaSuffix := by
  have h : matriculaSuffix = [1, 2, 3, 4] := by decide
  unfold add_matricula_to_message MODBUS_MATRICULA
  simp [h]
  decide

/-- C5: the bit-by-bit `modbus_crc16` agrees with the reference
table-based MODBUS CRC16 oracle on every byte string. -/
theorem C5_crc16_matches_table_oracle (data : List Nat) (hdata : ∀ b ∈ data, b < 256) :
    modbus_crc16 data = crc16_table_ref data :=
  crc16_fold_agree data hdata 0xFFFF

theorem C5_crc16_matches_table_oracle_witness :
    (∀ b ∈ [0x01, 0x04, 0x02, 0xFF, 0xFF], b < 256) ∧
      modbus_crc16 [0x01, 0x04, 0x02, 0xFF, 0xFF] =
        crc16_table_ref [0x01, 0x04, 0x02, 0xFF, 0xFF] :=
  ⟨by decide, C5_crc16_matches_table_oracle _ (by decide)⟩

/-- C6: every outbound request frame the client builds (camera trigger
and display update alike) ends with the 4-byte identifier suffix — the
last four decimal digits of the configured identifier as two big-endian
16-bit values — immediately before the CRC, and the CRC of all preceding
bytes is appended low byte first. -/
theorem C6_frames_end_with_suffix_then_crc (camera : Nat) (info : DisplayInfo) :
    FrameWellTagged (camera_trigger_frame camera) ∧
      FrameWellTagged (display_update_frame info) := by
  constructor
  · refine ⟨[camera, 0x06, 0x00, 0x01, 0x00, 0x01], ?_⟩
    simp [camera_trigger_frame, add_matricula_eq, LPR_REG_TRIGGER, List.append_assoc]
  · refine ⟨[ MODBUS_ADDR_DISPLAY, 0x10, 0x00, 0x00, 0x00, 0x0D, 0x1A] ++
      ((displayRegs info).map (fun v => [(v >>> 8) &&& 0xFF, v &&& 0xFF])).flatten, ?_⟩
    simp [display_update_frame, add_matricula_eq, List.append_assoc]

/-! ## Device client retry policy (C2) -/

/-- A transport whose first two attempts fail and whose later attempts
succeed. -/
def failTwiceTransport : Nat → SendRecvOutcome := fun n =>
  if n < 2 then SendRecvOutcome.sendFail else SendRecvOutcome.okRT

/-- C2 as stated is false: with a transport that fails twice then
succeeds (and the default three retries), the camera trigger neither
succeeds nor counts two errors — the source has no retry loop, so the
call fails on the first attempt with a single error counted. -/
theorem C2_counterexample :
    ¬ ((modbus_camera_trigger failTwiceTransport initStats).1 = 0 ∧
       (modbus_camera_trigger failTwiceTransport initStats).2.errors = 2) := by
  decide

/-- C2 amended: every bus operation makes exactly one transport attempt.
One request is always counted; a send/receive failure counts exactly one
error and the call returns -1 without any retry or backoff, a success
counts one response and returns 0. The camera trigger and the display
update behave identically. -/
theorem C2_amended_single_attempt (tr : Nat → SendRecvOutcome) (s : ModbusStats) :
    (modbus_camera_trigger tr s =
      if tr 0 = SendRecvOutcome.okRT then
        (0, { s with requests_sent := s.requests_sent + 1
                     responses_received := s.responses_received + 1 })
      else
        (-1, { s with requests_sent := s.requests_sent + 1, errors := s.errors + 1 })) ∧
    modbus_display_update tr s = modbus_camera_trigger tr s := by
  cases h : tr 0 <;>
    simp [modbus_camera_trigger, modbus_display_update, h]

/-! ## Gate controller theorems -/

/-- The motor value a tick writes is `true` exactly when the pre-tick
state is OPENING or CLOSING. -/
lemma gate_tick_motor (now : Nat) (so sc : Bool) (g : Gate) :
    (gate_tick now so sc g).1 = true ↔
      (g.state = GateState.OPENING ∨ g.state = GateState.CLOSING) := by
  obtain ⟨st, lo, oc⟩ := g
  cases st <;> simp [gate_tick]

/-- C1: along any sequence of open/close/reset commands interleaved with
polling-loop ticks, every tick writes `true` to the motor output exactly
when the gate's state at that tick is OPENING or CLOSING — so the motor
is deasserted whenever the state is CLOSED, OPEN or ERROR. -/
theorem C1_motor_asserted_only_while_moving (g0 : Gate) (events : List GateEvent)
    (p : GateState × Bool) (hp : p ∈ (gateRun g0 events).1) :
    p.2 = true ↔ (p.1 = GateState.OPENING ∨ p.1 = GateState.CLOSING) := by
  induction events generalizing g0 with
  | nil => simp [gateRun] at hp
  | cons e rest ih =>
      cases e with
      | openCmd now =>
          simp only [gateRun] at hp
          exact ih _ hp
      | closeCmd now =>
          simp only [gateRun] at hp
          exact ih _ hp
      | resetCmd now so sc =>
          simp only [gateRun] at hp
          exact ih _ hp
      | tick now so sc =>
          simp only [gateRun, List.mem_cons] at hp
          rcases hp with hp | hp
          · subst hp
            exact gate_tick_motor now so sc g0
          · exact ih _ hp

theorem C1_motor_asserted_only_while_moving_witness :
    ((GateState.CLOSED, false) ∈
        (gateRun (init_gate 0) [GateEvent.tick 0 false false, GateEvent.openCmd 0,
          GateEvent.tick 0 false false]).1) ∧
      (((GateState.CLOSED, false) : GateState × Bool).2 = true ↔
        (((GateState.CLOSED, false) : GateState × Bool).1 = GateState.OPENING ∨
          ((GateState.CLOSED, false) : GateState × Bool).1 = GateState.CLOSING)) := by
  refine ⟨by decide, ?_⟩
  exact C1_motor_asserted_only_while_moving (init_gate 0)
    [GateEvent.tick 0 false false, GateEvent.openCmd 0, GateEvent.tick 0 false false]
    (GateState.CLOSED, false) (by decide)

/-! ## Gate timeout granularity (C3) -/

/-- The gate right after `gate_open` is issued at wall clock 0 ms on a
freshly initialized gate. -/
def c3_gateOpening : Gate := (gate_open_at_ms 0 (init_gate 0)).2

/-- The 51 tick instants 100 ms, 200 ms, ..., 5100 ms. -/
def c3_tickTimes : List Nat := (List.range 51).map (fun i => 100 * (i + 1))

/-- The gate after all 51 ticks with the open sensor never active. -/
def c3_final : Gate :=
  c3_tickTimes.foldl (fun g tm => (gate_tick_at_ms tm false false g).2) c3_gateOpening

/-- C3 as stated is false: a gate that entered OPENING at 0 ms with its
open sensor never active is still OPENING — not ERROR — after the tick
at 5100 ms, although 5100 ms exceeds GATE_TIMEOUT (5000 ms) by a full
100 ms tick. The timeout comparison `time(NULL) - last_operation > 5`
works in whole seconds, so the transition cannot happen before the
6000 ms tick here. -/
theorem C3_counterexample :
    c3_final.state = GateState.OPENING ∧ ¬ c3_final.state = GateState.ERROR ∧
      GATE_TIMEOUT_MS + 100 ≤ 5100 := by
  decide

/-- C3 amended: for a gate in OPENING whose open sensor stays inactive,
the tick at wall-clock millisecond `t` moves it to ERROR exactly when
the whole-second difference `t/1000 - t0/1000` exceeds 5, where `t0` is
the instant the recorded `time_t` `last_operation` was taken. Such a
tick never fires 5000 ms or less after `t0`; every tick from 6000 ms
elapsed onwards fires; below the threshold the gate stays OPENING. The
transition is therefore guaranteed only within (5000 ms, 6100 ms), not
within one 100 ms tick of 5000 ms. -/
theorem C3_amended_timeout_in_whole_seconds (g : Gate) (t0 t : Nat) (sc : Bool)
    (hst : g.state = GateState.OPENING) (hlast : g.last_operation = t0 / 1000)
    (hle : t0 ≤ t) :
    ((gate_tick_at_ms t false sc g).2.state = GateState.ERROR ↔
        t / 1000 - t0 / 1000 > 5) ∧
    ((gate_tick_at_ms t false sc g).2.state = GateState.ERROR → t - t0 > 5000) ∧
    (t - t0 ≥ 6000 → (gate_tick_at_ms t false sc g).2.state = GateState.ERROR) ∧
    (¬ t / 1000 - t0 / 1000 > 5 →
      (gate_tick_at_ms t false sc g).2.state = GateState.OPENING) := by
  obtain ⟨st, lo, oc⟩ := g
  simp only at hst hlast
  subst hst
  subst hlast
  by_cases hc : t / 1000 - t0 / 1000 > 5
  · refine ⟨?_, ?_, ?_, ?_⟩ <;>
      simp [gate_tick_at_ms, gate_tick, GATE_TIMEOUT_MS, hc]
    omega
  · refine ⟨?_, ?_, ?_, ?_⟩ <;>
      simp [gate_tick_at_ms, gate_tick, GATE_TIMEOUT_MS, hc]
    omega

theorem C3_amended_timeout_in_whole_seconds_witness :
    (gate_tick_at_ms 6000 false false (⟨GateState.OPENING, 0, 0⟩ : Gate)).2.state =
      GateState.ERROR :=
  (C3_amended_timeout_in_whole_seconds ⟨GateState.OPENING, 0, 0⟩ 0 6000 false rfl rfl
    (by decide)).2.2.1 (by decide)

/-! ## Emergency open (C4) -/

/-- C4: `gate_emergency_open_all` just invokes the ordinary `gate_open`
on every gate; since `gate_open` rejects a gate in ERROR, a gate in
ERROR is left exactly as it was — still in ERROR, with the rejected call
returning -1 — and its polling loop keeps the motor deasserted. -/
theorem C4_emergency_does_not_force_error_gate (now : Nat) (entry exitG : Gate)
    (h : entry.state = GateState.ERROR) :
    gate_emergency_open_all now entry exitG =
        ((gate_open now entry).2, (gate_open now exitG).2) ∧
      (gate_emergency_open_all now entry exitG).1 = entry ∧
      (gate_open now entry).1 = -1 ∧
      ∀ t so sc, (gate_tick t so sc (gate_emergency_open_all now entry exitG).1).1 = false := by
  have hopen : gate_open now entry = (-1, entry) := by
    simp [gate_open, h]
  refine ⟨rfl, ?_, ?_, ?_⟩
  · simp [gate_emergency_open_all, hopen]
  · simp [hopen]
  · intro t so sc
    have hm := gate_tick_motor t so sc entry
    simp [gate_emergency_open_all, hopen, h] at hm ⊢
    exact hm

theorem C4_emergency_does_not_force_error_gate_witness :
    (gate_emergency_open_all 5 (⟨GateState.ERROR, 0, 0⟩ : Gate) (init_gate 0)).1 =
      (⟨GateState.ERROR, 0, 0⟩ : Gate) :=
  (C4_emergency_does_not_force_error_gate 5 ⟨GateState.ERROR, 0, 0⟩ (init_gate 0) rfl).2.1

/-! ## LPR session theorems (C7, C8) -/

/-- C7: whenever `modbus_camera_read_plate` completes with a reading,
the reading's success flag is true exactly when its confidence is at
least MIN_PLATE_CONFIDENCE (70) and the decoded plate has at least 7
characters. -/
theorem C7_success_iff_confidence_and_length (dev : LprDevice) (timeout_ms : Int)
    (now : Nat) (s : ModbusStats) (r : PlateReading) (s' : ModbusStats)
    (h : modbus_camera_read_plate dev timeout_ms now s = (some r, s')) :
    r.success = true ↔
      (r.confidence ≥ MIN_PLATE_CONFIDENCE ∧ r.plate.length ≥ 7) := by
  unfold modbus_camera_read_plate at h
  cases hLp : lprPoll dev.statusReads ((lprTimeoutMs timeout_ms + 99) / 100) 0 (-1) s with
  | errR s1 => rw [hLp] at h; simp at h
  | timeoutR s1 => rw [hLp] at h; simp at h
  | okR s1 =>
      rw [hLp] at h
      unfold lprFinish at h
      cases hpr : dev.plateRead with
      | none => rw [hpr] at h; simp at h
      | some regs =>
          rw [hpr] at h
          cases hcr : dev.confidenceRead with
          | none =>
              rw [hcr] at h
              simp only [Prod.mk.injEq] at h
              obtain ⟨h1, h2⟩ := h
              obtain rfl := Option.some.inj h1
              simp [Bool.and_eq_true, decide_eq_true_iff]
          | some c =>
              rw [hcr] at h
              simp only [Prod.mk.injEq] at h
              obtain ⟨h1, h2⟩ := h
              obtain rfl := Option.some.inj h1
              simp [Bool.and_eq_true, decide_eq_true_iff]

/-- The camera used by the C7 witness: status immediately OK, plate
registers decoding to "ABC1234", confidence 50. -/
def c7_dev : LprDevice :=
  ⟨fun _ => some 2, some (0x4142, 0x4331, 0x3233, 0x3400), some 50⟩

theorem C7_success_iff_confidence_and_length_witness :
    ((⟨[65, 66, 67, 49, 50, 51, 52], 50, false, 0⟩ : PlateReading).success = true ↔
      ((⟨[65, 66, 67, 49, 50, 51, 52], 50, false, 0⟩ : PlateReading).confidence ≥
          MIN_PLATE_CONFIDENCE ∧
        (⟨[65, 66, 67, 49, 50, 51, 52], 50, false, 0⟩ : PlateReading).plate.length ≥ 7)) :=
  C7_success_iff_confidence_and_length c7_dev 2000 0 initStats
    ⟨[65, 66, 67, 49, 50, 51, 52], 50, false, 0⟩ ⟨3, 3, 0, 0, 0⟩ (by decide)

/-- C8: once the status poll has reached OK and the plate registers were
read, a failure to read the confidence register does not fail the call:
the reading is still returned with confidence 0 (hence success false)
and one more error counted. -/
theorem C8_confidence_read_failure_not_fatal (dev : LprDevice) (timeout_ms : Int)
    (now : Nat) (s : ModbusStats) (regs : Nat × Nat × Nat × Nat) (s1 : ModbusStats)
    (hconf : dev.confidenceRead = none)
    (hplate : dev.plateRead = some regs)
    (hpoll : lprPoll dev.statusReads ((lprTimeoutMs timeout_ms + 99) / 100) 0 (-1) s =
      PollResult.okR s1) :
    modbus_camera_read_plate dev timeout_ms now s =
      (some ⟨trimTrailingSpaces (truncAtNonPrintable (plateBytes regs)), 0, false, now⟩,
       { s1 with requests_sent := s1.requests_sent + 2
                 responses_received := s1.responses_received + 1
                 errors := s1.errors + 1 }) := by
  unfold modbus_camera_read_plate
  rw [hpoll]
  unfold lprFinish
  rw [hplate, hconf]
  rfl

/-- The camera used by the C8 witness: status immediately OK, all plate
registers zero, confidence register unreadable. -/
def c8_dev : LprDevice := ⟨fun _ => some 2, some (0, 0, 0, 0), none⟩

theorem C8_confidence_read_failure_not_fatal_witness :
    modbus_camera_read_plate c8_dev 2000 7 initStats =
      (some ⟨[], 0, false, 7⟩, ⟨3, 2, 1, 0, 0⟩) :=
  C8_confidence_read_failure_not_fatal c8_dev 2000 7 initStats (0, 0, 0, 0)
    ⟨1, 1, 0, 0, 0⟩ rfl rfl (by decide)

/-! ## Passage detector theorems (C9) -/

lemma runPassage_cons (now : Nat) (a b : Bool) (st : PassageState)
    (l : List (Nat × Bool × Bool)) :
    runPassage st ((now, a, b) :: l) =
      ((detect_passage_direction now a b st).1 ::
          (runPassage (detect_passage_direction now a b st).2 l).1,
       (runPassage (detect_passage_direction now a b st).2 l).2) := rfl

lemma runPassage_replicate_stay (now : Nat) (a b : Bool) (st : PassageState)
    (h : detect_passage_direction now a b st = (0, st)) (n : Nat)
    (l : List (Nat × Bool × Bool)) :
    runPassage st (List.replicate n (now, a, b) ++ l) =
      (List.replicate n 0 ++ (runPassage st l).1, (runPassage st l).2) := by
  induction n with
  | zero => simp
  | succ n ih => simp [List.replicate_succ, runPassage_cons, h, ih]

lemma runPassage_replicate_stay_nil (now : Nat) (a b : Bool) (st : PassageState)
    (h : detect_passage_direction now a b st = (0, st)) (n : Nat) :
    runPassage st (List.replicate n (now, a, b)) = (List.replicate n 0, st) := by
  have := runPassage_replicate_stay now a b st h n []
  simpa [runPassage] using this

lemma detect_idle_s1 (t : Nat) (e0 : Bool) (lt0 : Nat) :
    detect_passage_direction t true false ⟨PassagePhase.IDLE, e0, lt0⟩ =
      (0, ⟨PassagePhase.S1_ACTIVE, true, t⟩) := by
  by_cases h5 : t - lt0 > 5 <;> simp [detect_passage_direction, h5]

lemma detect_idle_s2 (t : Nat) (e0 : Bool) (lt0 : Nat) :
    detect_passage_direction t false true ⟨PassagePhase.IDLE, e0, lt0⟩ =
      (0, ⟨PassagePhase.S2_ACTIVE, false, t⟩) := by
  by_cases h5 : t - lt0 > 5 <;> simp [detect_passage_direction, h5]

lemma detect_s1_hold (t : Nat) (e : Bool) :
    detect_passage_direction t true false ⟨PassagePhase.S1_ACTIVE, e, t⟩ =
      (0, ⟨PassagePhase.S1_ACTIVE, e, t⟩) := by
  simp [detect_passage_direction]

lemma detect_s2_hold (t : Nat) (e : Bool) :
    detect_passage_direction t false true ⟨PassagePhase.S2_ACTIVE, e, t⟩ =
      (0, ⟨PassagePhase.S2_ACTIVE, e, t⟩) := by
  simp [detect_passage_direction]

lemma detect_s1_both (t : Nat) (e : Bool) :
    detect_passage_direction t true true ⟨PassagePhase.S1_ACTIVE, e, t⟩ =
      (0, ⟨PassagePhase.BOTH_ACTIVE, e, t⟩) := by
  simp [detect_passage_direction]

lemma detect_s2_both (t : Nat) (e : Bool) :
    detect_passage_direction t true true ⟨PassagePhase.S2_ACTIVE, e, t⟩ =
      (0, ⟨PassagePhase.BOTH_ACTIVE, e, t⟩) := by
  simp [detect_passage_direction]

lemma detect_both_hold (t : Nat) (e : Bool) :
    detect_passage_direction t true true ⟨PassagePhase.BOTH_ACTIVE, e, t⟩ =
      (0, ⟨PassagePhase.BOTH_ACTIVE, e, t⟩) := by
  simp [detect_passage_direction]

lemma detect_both_up (t : Nat) :
    detect_passage_direction t false true ⟨PassagePhase.BOTH_ACTIVE, true, t⟩ =
      (1, ⟨PassagePhase.S2_ACTIVE, true, t⟩) := by
  simp [detect_passage_direction]

lemma detect_both_down (t : Nat) :
    detect_passage_direction t true false ⟨PassagePhase.BOTH_ACTIVE, false, t⟩ =
      (-1, ⟨PassagePhase.S1_ACTIVE, false, t⟩) := by
  simp [detect_passage_direction]

lemma detect_s1_to_idle (t : Nat) (e : Bool) :
    detect_passage_direction t false false ⟨PassagePhase.S1_ACTIVE, e, t⟩ =
      (0, ⟨PassagePhase.IDLE, e, t⟩) := by
  simp [detect_passage_direction]

lemma detect_s2_to_idle (t : Nat) (e : Bool) :
    detect_passage_direction t false false ⟨PassagePhase.S2_ACTIVE, e, t⟩ =
      (0, ⟨PassagePhase.IDLE, e, t⟩) := by
  simp [detect_passage_direction]

lemma detect_idle_hold (t : Nat) (e : Bool) :
    detect_passage_direction t false false ⟨PassagePhase.IDLE, e, t⟩ =
      (0, ⟨PassagePhase.IDLE, e, t⟩) := by
  simp [detect_passage_direction]

/-- The S1 → both → S2 sample sequence: the run emits a single 1. -/
lemma runPassage_up (a b c t : Nat) (e0 lt0 : _) :
    runPassage ⟨PassagePhase.IDLE, e0, lt0⟩
        (List.replicate (a + 1) (t, true, false) ++ List.replicate (b + 1) (t, true, true) ++
          List.replicate (c + 1) (t, false, true)) =
      (0 :: (List.replicate a 0 ++ (0 :: (List.replicate b 0 ++ (1 :: List.replicate c 0)))),
       ⟨PassagePhase.S2_ACTIVE, true, t⟩) := by
  have harr : List.replicate (a + 1) ((t : Nat), true, false) ++
        List.replicate (b + 1) ((t : Nat), true, true) ++
        List.replicate (c + 1) ((t : Nat), false, true) =
      (t, true, false) :: (List.replicate a (t, true, false) ++
        ((t, true, true) :: (List.replicate b (t, true, true) ++
          ((t, false, true) :: List.replicate c (t, false, true))))) := by
    simp [List.replicate_succ, List.append_assoc]
  rw [harr, runPassage_cons, detect_idle_s1]
  rw [runPassage_replicate_stay t true false _ (detect_s1_hold t true)]
  rw [runPassage_cons, detect_s1_both]
  rw [runPassage_replicate_stay t true true _ (detect_both_hold t true)]
  rw [runPassage_cons, detect_both_up]
  rw [runPassage_replicate_stay_nil t false true _ (detect_s2_hold t true)]

/-- The S2 → both → S1 sample sequence: the run emits a single -1. -/
lemma runPassage_down (a b c t : Nat) (e0 lt0 : _) :
    runPassage ⟨PassagePhase.IDLE, e0, lt0⟩
        (List.replicate (a + 1) (t, false, true) ++ List.replicate (b + 1) (t, true, true) ++
          List.replicate (c + 1) (t, true, false)) =
      (0 :: (List.replicate a 0 ++ (0 :: (List.replicate b 0 ++ (-1 :: List.replicate c 0)))),
       ⟨PassagePhase.S1_ACTIVE, false, t⟩) := by
  have harr : List.replicate (a + 1) ((t : Nat), false, true) ++
        List.replicate (b + 1) ((t : Nat), true, true) ++
        List.replicate (c + 1) ((t : Nat), true, false) =
      (t, false, true) :: (List.replicate a (t, false, true) ++
        ((t, true, true) :: (List.replicate b (t, true, true) ++
          ((t, true, false) :: List.replicate c (t, true, false))))) := by
    simp [List.replicate_succ, List.append_assoc]
  rw [harr, runPassage_cons, detect_idle_s2]
  rw [runPassage_replicate_stay t false true _ (detect_s2_hold t false)]
  rw [runPassage_cons, detect_s2_both]
  rw [runPassage_replicate_stay t true true _ (detect_both_hold t false)]
  rw [runPassage_cons, detect_both_down]
  rw [runPassage_replicate_stay_nil t true false _ (detect_s1_hold t false)]

/-- Retreat from S1-only to both-inactive: no event. -/
lemma runPassage_retreat_s1 (a d t : Nat) (e0 lt0 : _) :
    runPassage ⟨PassagePhase.IDLE, e0, lt0⟩
        (List.replicate (a + 1) (t, true, false) ++ List.replicate (d + 1) (t, false, false)) =
      (0 :: (List.replicate a 0 ++ (0 :: List.replicate d 0)),
       ⟨PassagePhase.IDLE, true, t⟩) := by
  have harr : List.replicate (a + 1) ((t : Nat), true, false) ++
        List.replicate (d + 1) ((t : Nat), false, false) =
      (t, true, false) :: (List.replicate a (t, true, false) ++
        ((t, false, false) :: List.replicate d (t, false, false))) := by
    simp [List.replicate_succ, List.append_assoc]
  rw [harr, runPassage_cons, detect_idle_s1]
  rw [runPassage_replicate_stay t true false _ (detect_s1_hold t true)]
  rw [runPassage_cons, detect_s1_to_idle]
  rw [runPassage_replicate_stay_nil t false false _ (detect_idle_hold t true)]

/-- Retreat from S2-only to both-inactive: no event. -/
lemma runPassage_retreat_s2 (a d t : Nat) (e0 lt0 : _) :
    runPassage ⟨PassagePhase.IDLE, e0, lt0⟩
        (List.replicate (a + 1) (t, false, true) ++ List.replicate (d + 1) (t, false, false)) =
      (0 :: (List.replicate a 0 ++ (0 :: List.replicate d 0)),
       ⟨PassagePhase.IDLE, false, t⟩) := by
  have harr : List.replicate (a + 1) ((t : Nat), false, true) ++
        List.replicate (d + 1) ((t : Nat), false, false) =
      (t, false, true) :: (List.replicate a (t, false, true) ++
        ((t, false, false) :: List.replicate d (t, false, false))) := by
    simp [List.replicate_succ, List.append_assoc]
  rw [harr, runPassage_cons, detect_idle_s2]
  rw [runPassage_replicate_stay t false true _ (detect_s2_hold t false)]
  rw [runPassage_cons, detect_s2_to_idle]
  rw [runPassage_replicate_stay_nil t false false _ (detect_idle_hold t false)]

/-- C9: from IDLE, a sampled S1-only, then both-active, then S2-only
sequence emits exactly one upward event (1) and no downward event; the
symmetric sequence emits exactly one downward event (-1) and no upward
event; and a sequence that returns from a single-active state to both
sensors inactive without reaching both-active emits no event at all. -/
theorem C9_passage_direction_events (a b c d t : Nat) (st0 : PassageState)
    (h : st0.phase = PassagePhase.IDLE) :
    ((runPassage st0 (List.replicate (a + 1) (t, true, false) ++
        List.replicate (b + 1) (t, true, true) ++
        List.replicate (c + 1) (t, false, true))).1.count 1 = 1 ∧
      (runPassage st0 (List.replicate (a + 1) (t, true, false) ++
        List.replicate (b + 1) (t, true, true) ++
        List.replicate (c + 1) (t, false, true))).1.count (-1) = 0) ∧
    ((runPassage st0 (List.replicate (a + 1) (t, false, true) ++
        List.replicate (b + 1) (t, true, true) ++
        List.replicate (c + 1) (t, true, false))).1.count (-1) = 1 ∧
      (runPassage st0 (List.replicate (a + 1) (t, false, true) ++
        List.replicate (b + 1) (t, true, true) ++
        List.replicate (c + 1) (t, true, false))).1.count 1 = 0) ∧
    (∀ x ∈ (runPassage st0 (List.replicate (a + 1) (t, true, false) ++
        List.replicate (d + 1) (t, false, false))).1, x = 0) ∧
    (∀ x ∈ (runPassage st0 (List.replicate (a + 1) (t, false, true) ++
        List.replicate (d + 1) (t, false, false))).1, x = 0) := by
  obtain ⟨ph, e0, lt0⟩ := st0
  simp only at h
  subst h
  rw [runPassage_up a b c t e0 lt0, runPassage_down a b c t e0 lt0,
    runPassage_retreat_s1 a d t e0 lt0, runPassage_retreat_s2 a d t e0 lt0]
  refine ⟨⟨?_, ?_⟩, ⟨?_, ?_⟩, ?_, ?_⟩
  · simp [List.count_cons, List.count_replicate]
  · simp [List.count_cons, List.count_replicate]
  · simp [List.count_cons, List.count_replicate]
  · simp [List.count_cons, List.count_replicate]
  · intro x hx
    simp only [List.mem_cons, List.mem_append] at hx
    rcases hx with hx | hx | hx | hx <;> first
      | exact hx
      | exact List.eq_of_mem_replicate hx
  · intro x hx
    simp only [List.mem_cons, List.mem_append] at hx
    rcases hx with hx | hx | hx | hx <;> first
      | exact hx
      | exact List.eq_of_mem_replicate hx

theorem C9_passage_direction_events_witness :
    (((⟨PassagePhase.IDLE, false, 0⟩ : PassageState)).phase = PassagePhase.IDLE) ∧
      (runPassage ⟨PassagePhase.IDLE, false, 0⟩ (List.replicate 1 (0, true, false) ++
        List.replicate 1 (0, true, true) ++
        List.replicate 1 (0, false, true))).1.count 1 = 1 :=
  ⟨rfl, (C9_passage_direction_events 0 0 0 0 0 ⟨PassagePhase.IDLE, false, 0⟩ rfl).1.1⟩

/-! ## Statistics invariant (C10) -/

/-- The polling loop preserves `responses_received ≤ requests_sent`:
every response counted follows a counted request in the same
iteration. -/
lemma lprPoll_resp_le_req (reads : Nat → Option Nat) (fuel : Nat) :
    ∀ i status s, s.responses_received ≤ s.requests_sent →
      (lprPoll reads fuel i status s).stats.responses_received ≤
        (lprPoll reads fuel i status s).stats.requests_sent := by
  induction fuel with
  | zero =>
      intro i status s h
      unfold lprPoll
      split <;> simpa [PollResult.stats]
  | succ fuel ih =>
      intro i status s h
      unfold lprPoll
      cases reads i with
      | none =>
          exact ih (i + 1) status _ (by simpa using Nat.le_succ_of_le h)
      | some v =>
          by_cases h2 : v = 2
          · simp [h2, PollResult.stats]
            omega
          · by_cases h3 : v = 3
            · simp [h2, h3, PollResult.stats]
              omega
            · simp only [h2, h3, if_false]
              exact ih (i + 1) v _ (by simp; omega)

/-- `modbus_camera_read_plate` preserves the invariant. -/
lemma read_plate_resp_le_req (dev : LprDevice) (timeout_ms : Int) (now : Nat)
    (s : ModbusStats) (h : s.responses_received ≤ s.requests_sent) :
    (modbus_camera_read_plate dev timeout_ms now s).2.responses_received ≤
      (modbus_camera_read_plate dev timeout_ms now s).2.requests_sent := by
  unfold modbus_camera_read_plate
  have hp := lprPoll_resp_le_req dev.statusReads ((lprTimeoutMs timeout_ms + 99) / 100)
    0 (-1) s h
  cases hLp : lprPoll dev.statusReads ((lprTimeoutMs timeout_ms + 99) / 100) 0 (-1) s with
  | errR s1 => rw [hLp] at hp; simpa [PollResult.stats] using hp
  | timeoutR s1 => rw [hLp] at hp; simpa [PollResult.stats] using hp
  | okR s1 =>
      rw [hLp] at hp
      simp only [PollResult.stats] at hp
      unfold lprFinish
      cases dev.plateRead with
      | none => simp; omega
      | some regs =>
          cases dev.confidenceRead with
          | none => simp; omega
          | some c => simp; omega

/-- Every bus operation preserves `responses_received ≤ requests_sent`. -/
lemma applyBusOp_resp_le_req (s : ModbusStats) (op : BusOp)
    (h : s.responses_received ≤ s.requests_sent) :
    (applyBusOp s op).responses_received ≤ (applyBusOp s op).requests_sent := by
  cases op with
  | trigger tr =>
      cases htr : tr 0 <;> simp [applyBusOp, modbus_camera_trigger, htr] <;> omega
  | readPlate dev timeout_ms now => exact read_plate_resp_le_req dev timeout_ms now s h
  | displayUpdate tr =>
      cases htr : tr 0 <;> simp [applyBusOp, modbus_display_update, htr] <;> omega
  | displayUpdateFloor floor ok =>
      by_cases hf : floor < 0 ∨ floor > 2 <;>
        cases ok <;> simp [applyBusOp, modbus_display_update_floor, hf] <;> omega
  | displayUpdateFlags ok =>
      cases ok <;> simp [applyBusOp, modbus_display_update_flags] <;> omega
  | displayRead ok =>
      cases ok <;> simp [applyBusOp, modbus_display_read] <;> omega
  | testDevice ok =>
      simpa [applyBusOp, modbus_test_device] using h

/-- C10: after any sequence of bus operations — camera triggers, plate
reads, display updates and reads, device tests — with any transport and
device behaviour, `responses_received` never exceeds `requests_sent`:
each response increment is paired with a request increment in the same
operation, and failed attempts count errors or timeouts but never a
response. -/
theorem C10_responses_never_exceed_requests (ops : List BusOp) (s0 : ModbusStats)
    (h : s0.responses_received ≤ s0.requests_sent) :
    (runBusOps s0 ops).responses_received ≤ (runBusOps s0 ops).requests_sent := by
  induction ops generalizing s0 with
  | nil => simpa [runBusOps] using h
  | cons op rest ih =>
      have hstep := applyBusOp_resp_le_req s0 op h
      simpa [runBusOps] using ih (applyBusOp s0 op) hstep

theorem C10_responses_never_exceed_requests_witness :
    initStats.responses_received ≤ initStats.requests_sent ∧
      (runBusOps initStats
          [BusOp.trigger (fun _ => SendRecvOutcome.okRT),
           BusOp.trigger (fun _ => SendRecvOutcome.sendFail),
           BusOp.displayUpdateFloor 1 false,
           BusOp.testDevice true]).responses_received ≤
        (runBusOps initStats
          [BusOp.trigger (fun _ => SendRecvOutcome.okRT),
           BusOp.trigger (fun _ => SendRecvOutcome.sendFail),
           BusOp.displayUpdateFloor 1 false,
           BusOp.testDevice true]).requests_sent :=
  ⟨by decide,
   C10_responses_never_exceed_requests
     [BusOp.trigger (fun _ => SendRecvOutcome.okRT),
      BusOp.trigger (fun _ => SendRecvOutcome.sendFail),
      BusOp.displayUpdateFloor 1 false,
      BusOp.testDevice true] initStats (by decide)⟩

end Parking
